import Mathlib

/-!
Shallow embedding of the `tears` advisory tool: the `Trust` and `Mood`
enumerations (`src/crate/tears/src/trust.rs`, `src/crate/tears/src/mood.rs`),
the suggestions table and the home-page selection/derivation logic
(`src/webapp/src/app.rs`).
-/

/-- Whether the receiving person trusts you (`trust.rs`). -/
inductive Trust
  | Absent
  | Present
deriving DecidableEq, Repr

/-- The mood the receiving person is in (`mood.rs`). -/
inductive Mood
  | _01_Anguished
  | _02_Closed
  | _03_Cautious
  | _04_Unsettled
  | _05_Calm
  | _06_Hopeful
deriving DecidableEq, Repr

namespace Trust

/-- `Trust::iter()`: all variants in declaration order. -/
def iter : List Trust := [Trust.Absent, Trust.Present]

/-- `impl Display for Trust`. -/
def display : Trust → String
  | Trust.Absent => "Absent"
  | Trust.Present => "Present"

/-- `impl FromStr for Trust`; `Err(())` is modelled as `none`. -/
def from_str : String → Option Trust
  | "Absent" => some Trust.Absent
  | "Present" => some Trust.Present
  | _ => none

end Trust

namespace Mood

/-- `Mood::iter()`: all variants in declaration order. -/
def iter : List Mood :=
  [Mood._01_Anguished, Mood._02_Closed, Mood._03_Cautious,
   Mood._04_Unsettled, Mood._05_Calm, Mood._06_Hopeful]

/-- `Mood::rank`: the mood on a scale of 1 to 10 (only 1..6 used). -/
def rank : Mood → Nat
  | Mood._01_Anguished => 1
  | Mood._02_Closed => 2
  | Mood._03_Cautious => 3
  | Mood._04_Unsettled => 4
  | Mood._05_Calm => 5
  | Mood._06_Hopeful => 6

/-- `impl TryFrom<u8> for Mood`; `Err(())` is modelled as `none`. -/
def try_from : Nat → Option Mood
  | 1 => some Mood._01_Anguished
  | 2 => some Mood._02_Closed
  | 3 => some Mood._03_Cautious
  | 4 => some Mood._04_Unsettled
  | 5 => some Mood._05_Calm
  | 6 => some Mood._06_Hopeful
  | _ => none

/-- `impl Display for Mood`. -/
def display : Mood → String
  | Mood._01_Anguished => "Anguished"
  | Mood._02_Closed => "Closed"
  | Mood._03_Cautious => "Cautious"
  | Mood._04_Unsettled => "Unsettled"
  | Mood._05_Calm => "Calm"
  | Mood._06_Hopeful => "Hopeful"

/-- `impl FromStr for Mood`; `Err(())` is modelled as `none`. -/
def from_str : String → Option Mood
  | "Anguished" => some Mood._01_Anguished
  | "Closed" => some Mood._02_Closed
  | "Cautious" => some Mood._03_Cautious
  | "Unsettled" => some Mood._04_Unsettled
  | "Calm" => some Mood._05_Calm
  | "Hopeful" => some Mood._06_Hopeful
  | _ => none

end Mood

/-- A suggestion to show for a given trust + mood level (`suggestion.rs`). -/
structure Suggestion where
  action : String
  description : String
deriving DecidableEq, Repr

/-- The suggestions `HashMap` of `suggestions_map` in `app.rs`, modelled as a
partial function from keys to suggestions. -/
def SuggestionMap : Type := Trust × Mood → Option Suggestion

/-- `HashMap::insert`: point update of the map. -/
def SuggestionMap.insert (m : SuggestionMap) (k : Trust × Mood) (v : Suggestion) :
    SuggestionMap :=
  fun k2 => if k2 = k then some v else m k2

/-- `HashMap::with_capacity(32)`: the empty map. -/
def SuggestionMap.empty : SuggestionMap := fun _ => none

/-- The twelve `suggestions.insert` calls of `suggestions_map` in `app.rs`, in
source order, as (key, value) pairs. -/
def suggestions_entries : List ((Trust × Mood) × Suggestion) :=
  [ ((Trust.Absent, Mood._01_Anguished),
     { action := "Stay away",
       description := "As a \"stranger\", your presence pressurizes the person, and may aggravate them, even when your motive is pure.\n\nIt may be best to find someone whom they already trust." }),
    ((Trust.Absent, Mood._02_Closed),
     { action := "Stay away",
       description := "Leave a gift if you must (e.g. chocolate), but your presence pressurizes the person.\n\nIf they accept the gift in your  absence, then that may be the beginning of trust." }),
    ((Trust.Absent, Mood._03_Cautious),
     { action := "Occasionally ask if they want something",
       description := "If you are sure the person wants something (that isn't harmful), ask \"do you want ____\"?\n\nMake sure the conversation is paced such that they are able to handle it.\n\nDon't ask why, don't require an answer -- provide a way \"out\" (e.g. \"you don't have to answer\"). Asking such questions is perceived as \"justify yourself\", and may cause them to hate you (which they may not vocalize)." }),
    ((Trust.Absent, Mood._04_Unsettled),
     { action := "Ask, \"would you like to say anything?\", then wait.",
       description := "Just listen, don't problem solve -- you haven't established trust with the person to do so.\n\nAt this stage, you may have some rational conversation, but nothing that would introduce too much emotional pressure.\n\nBe ready to leave them alone if that is what they want (they may not say it)." }),
    ((Trust.Absent, Mood._05_Calm),
     { action := "Be calm / hopeful.",
       description := "Find some gentle fun -- the person is ready to explore.\n\nBe ready to leave them alone if that is what they want (they may not say it)." }),
    ((Trust.Absent, Mood._06_Hopeful),
     { action := "Enjoy yourselves.",
       description := "Make new happy memories -- the person needs them.\n\nThis is your chance to help them believe life can be good." }),
    ((Trust.Present, Mood._01_Anguished),
     { action := "Be fully present with them",
       description := "Simply sit quietly with them and allow them to grieve.\n\nAny more than that may overwhelm the person." }),
    ((Trust.Present, Mood._02_Closed),
     { action := "Remain at a small distance",
       description := "Leave a gift if you have one, to show that they are still someone you care for; but allow a little distance -- your presence may feel like pressure to the person in the moment.\n\nDistance allows them to settle, proximity allows them to feel cared for." }),
    ((Trust.Present, Mood._03_Cautious),
     { action := "Occasionally ask if they want something",
       description := "If you are sure the person wants something (that isn't harmful), ask \"do you want ____\"?\n\nMake sure the conversation is paced such that they are able to handle it.\n\nDon't ask why, don't require an answer -- provide a way \"out\" (e.g. \"you don't have to answer\"). Asking such questions is perceived as \"justify yourself\", and may cause them to hate you (which they may not vocalize)." }),
    ((Trust.Present, Mood._04_Unsettled),
     { action := "Ask, \"would you like to say anything?\", then wait.",
       description := "Listen, and if it feels right you may ask, \"Would you like some help with it?\" (if you are able to help).\n\nAt this stage, you may have some rational conversation, but nothing that would introduce too much emotional pressure.\n" }),
    ((Trust.Present, Mood._05_Calm),
     { action := "Be calm / hopeful.",
       description := "Find some gentle fun -- the person is ready to explore." }),
    ((Trust.Present, Mood._06_Hopeful),
     { action := "Enjoy yourselves.",
       description := "Make new happy memories -- the person needs them.\n\nHelp them remember life can be good." }) ]

/-- `suggestions_map()` in `app.rs`: the map built by the twelve inserts. -/
def suggestions_map : SuggestionMap :=
  suggestions_entries.foldl (fun m e => m.insert e.1 e.2) SuggestionMap.empty

/-- The two selection signals of `HomePage` in `app.rs`:
`RwSignal::new(None::<Trust>)` and `RwSignal::new(None::<Mood>)`. -/
structure HomePageState where
  trust : Option Trust
  mood : Option Mood
deriving DecidableEq, Repr

/-- The initial state of `HomePage`: both signals start at `None`. -/
def HomePageState.initial : HomePageState := { trust := none, mood := none }

/-- `Option::zip` as used by the `suggestion` derivation. -/
def optZip : Option Trust → Option Mood → Option (Trust × Mood)
  | some t, some m => some (t, m)
  | _, _ => none

/-- The `suggestion` derived signal of `HomePage`:
`trust.zip(mood).and_then(|(trust, mood)| suggestions.get(&(trust, mood))).cloned()`. -/
def HomePageState.suggestion (s : HomePageState) : Option Suggestion :=
  (optZip s.trust s.mood).bind (fun p => suggestions_map p)

/-- `trust_on_input` in `TrustInput`:
`*trust.write() = Trust::from_str(event_target_value(&ev).as_str()).ok()`. -/
def trust_on_input (s : HomePageState) (input : String) : HomePageState :=
  { s with trust := Trust.from_str input }

/-- `trust_clear` in `TrustInput`: `*trust.write() = None`. -/
def trust_clear (s : HomePageState) : HomePageState :=
  { s with trust := none }

/-- `mood_on_input` in `MoodInput`:
`*mood.write() = Mood::from_str(event_target_value(&ev).as_str()).ok()`. -/
def mood_on_input (s : HomePageState) (input : String) : HomePageState :=
  { s with mood := Mood.from_str input }

/-- `mood_clear` in `MoodInput`: `*mood.write() = None`. -/
def mood_clear (s : HomePageState) : HomePageState :=
  { s with mood := none }

/-- Selecting a Trust radio button: the input event carries that variant's
display name, so the signal is written with `some` of the variant (`setTrust`
in the spec's vocabulary). -/
def setTrust (s : HomePageState) (t : Trust) : HomePageState :=
  { s with trust := some t }

/-- Selecting a Mood radio button: the input event carries that variant's
display name, so the signal is written with `some` of the variant (`setMood`
in the spec's vocabulary). -/
def setMood (s : HomePageState) (m : Mood) : HomePageState :=
  { s with mood := some m }

/-- C1: the claim that an input which does not parse as a Trust display name
leaves the trust selection at its prior value is false: with trust previously
`Present`, the handler resets it. -/
theorem C1_counterexample :
    ¬ ((trust_on_input { trust := some Trust.Present, mood := none } "not a trust").trust
        = some Trust.Present) := by decide

/-- C1 (amended): delivering an input that does not parse as a Trust display
name to the trust handler sets the trust selection to `none` (clears it) and
leaves the mood selection unchanged; likewise, an input that does not parse as
a Mood display name delivered to the mood handler clears the mood selection
and leaves the trust selection unchanged. No failure is surfaced: each handler
is total. The two handlers are hypothesised independently, so the statement
also covers cross-domain inputs such as a Mood name sent to the trust
handler. -/
theorem C1_amended_invalid_input_clears (s : HomePageState) (input : String) :
    (Trust.from_str input = none →
      (trust_on_input s input).trust = none ∧ (trust_on_input s input).mood = s.mood) ∧
    (Mood.from_str input = none →
      (mood_on_input s input).mood = none ∧ (mood_on_input s input).trust = s.trust) := by
  obtain ⟨st, sm⟩ := s
  constructor
  · intro h; exact ⟨by simp [trust_on_input, h], rfl⟩
  · intro h; exact ⟨by simp [mood_on_input, h], rfl⟩

/-- C1 witness: the amended statement at cross-domain inputs: the Mood display
name "Calm" delivered to the trust handler clears trust and keeps the mood,
and the Trust display name "Absent" delivered to the mood handler clears mood
and keeps the trust. -/
theorem C1_amended_invalid_input_clears_witness :
    (trust_on_input { trust := some Trust.Present, mood := some Mood._05_Calm }
        "Calm").trust = none ∧
    (trust_on_input { trust := some Trust.Present, mood := some Mood._05_Calm }
        "Calm").mood = some Mood._05_Calm ∧
    (mood_on_input { trust := some Trust.Present, mood := some Mood._05_Calm }
        "Absent").mood = none ∧
    (mood_on_input { trust := some Trust.Present, mood := some Mood._05_Calm }
        "Absent").trust = some Trust.Present :=
  ⟨((C1_amended_invalid_input_clears
      { trust := some Trust.Present, mood := some Mood._05_Calm } "Calm").1 rfl).1,
   ((C1_amended_invalid_input_clears
      { trust := some Trust.Present, mood := some Mood._05_Calm } "Calm").1 rfl).2,
   ((C1_amended_invalid_input_clears
      { trust := some Trust.Present, mood := some Mood._05_Calm } "Absent").2 rfl).1,
   ((C1_amended_invalid_input_clears
      { trust := some Trust.Present, mood := some Mood._05_Calm } "Absent").2 rfl).2⟩

/-- C2: the derived suggestion is `none` when either selection is unset, and
otherwise equals the table lookup at the selected pair, which is always
`some`. -/
theorem C2_suggestion_derivation (s : HomePageState) :
    ((s.trust = none ∨ s.mood = none) → s.suggestion = none) ∧
    (∀ t : Trust, ∀ m : Mood, s.trust = some t → s.mood = some m →
      s.suggestion = suggestions_map (t, m) ∧ (suggestions_map (t, m)).isSome = true) := by
  obtain ⟨st, sm⟩ := s
  constructor
  · rintro (rfl | rfl)
    · cases sm <;> rfl
    · cases st <;> rfl
  · rintro t m rfl rfl
    exact ⟨rfl, by cases t <;> cases m <;> decide⟩

set_option maxRecDepth 4096 in
/-- C3: the table's twelve inserted keys are pairwise distinct and cover all
of Trust × Mood, and every lookup yields a suggestion whose action and
description strings are non-empty. -/
theorem C3_table_total :
    (suggestions_entries.map Prod.fst).Nodup ∧
    (∀ t : Trust, ∀ m : Mood, (t, m) ∈ suggestions_entries.map Prod.fst) ∧
    (∀ t : Trust, ∀ m : Mood, ∃ s : Suggestion,
      suggestions_map (t, m) = some s ∧
      0 < s.action.length ∧ 0 < s.description.length) := by
  refine ⟨by decide, ?_, ?_⟩
  · intro t m; cases t <;> cases m <;> decide
  · intro t m; cases t <;> cases m <;> exact ⟨_, rfl, by decide, by decide⟩

/-- C4: parsing the display name of any Trust or Mood value yields that value
back. -/
theorem C4_display_roundtrip :
    (∀ t : Trust, Trust.from_str (Trust.display t) = some t) ∧
    (∀ m : Mood, Mood.from_str (Mood.display m) = some m) := by
  constructor
  · intro t; cases t <;> rfl
  · intro m; cases m <;> rfl

/-- C5: rank is a bijection between the six Mood values and 1..6: parsing a
mood's rank returns the mood, ranks 0 and 7 (and any rank outside 1..6) parse
to the error value, ranks lie in 1..6, and rank is injective and onto 1..6. -/
theorem C5_rank_bijection :
    (∀ m : Mood, Mood.try_from (Mood.rank m) = some m) ∧
    Mood.try_from 0 = none ∧ Mood.try_from 7 = none ∧
    (∀ n : Nat, n < 1 ∨ 6 < n → Mood.try_from n = none) ∧
    (∀ m : Mood, 1 ≤ Mood.rank m ∧ Mood.rank m ≤ 6) ∧
    (∀ m m2 : Mood, Mood.rank m = Mood.rank m2 → m = m2) ∧
    (∀ n : Nat, 1 ≤ n → n ≤ 6 → ∃ m : Mood, Mood.rank m = n) := by
  refine ⟨?_, rfl, rfl, ?_, ?_, ?_, ?_⟩
  · intro m; cases m <;> rfl
  · intro n h
    rcases n with _|_|_|_|_|_|_|n
    all_goals first
      | rfl
      | (rcases h with h | h <;> omega)
  · intro m; cases m <;> exact ⟨by decide, by decide⟩
  · intro m m2 hr
    cases m <;> cases m2 <;> first | rfl | exact absurd hr (by decide)
  · intro n h1 h2
    interval_cases n
    · exact ⟨Mood._01_Anguished, rfl⟩
    · exact ⟨Mood._02_Closed, rfl⟩
    · exact ⟨Mood._03_Cautious, rfl⟩
    · exact ⟨Mood._04_Unsettled, rfl⟩
    · exact ⟨Mood._05_Calm, rfl⟩
    · exact ⟨Mood._06_Hopeful, rfl⟩

/-- C6: from any selection state, setting Mood to the mood parsed from rank 1
and then setting Trust to Absent yields the suggestion whose action is
"Stay away". -/
theorem C6_scenario_e (s : HomePageState) (m : Mood)
    (h : Mood.try_from 1 = some m) :
    ∃ sug : Suggestion,
      (setTrust (setMood s m) Trust.Absent).suggestion = some sug ∧
      sug.action = "Stay away" := by
  obtain ⟨st, sm⟩ := s
  obtain rfl : Mood._01_Anguished = m := Option.some.inj h
  exact ⟨_, rfl, rfl⟩

/-- C6 witness: the scenario run from the initial (fresh) state with the mood
parsed from rank 1. -/
theorem C6_scenario_e_witness :
    ∃ sug : Suggestion,
      (setTrust (setMood HomePageState.initial Mood._01_Anguished)
          Trust.Absent).suggestion = some sug ∧
      sug.action = "Stay away" :=
  C6_scenario_e HomePageState.initial Mood._01_Anguished rfl

/-- C7: from any selection state, setting Trust to Present and then Mood to
Hopeful yields the suggestion whose action is "Enjoy yourselves.". -/
theorem C7_scenario_c (s : HomePageState) :
    ∃ sug : Suggestion,
      (setMood (setTrust s Trust.Present) Mood._06_Hopeful).suggestion = some sug ∧
      sug.action = "Enjoy yourselves." := by
  obtain ⟨st, sm⟩ := s
  exact ⟨_, rfl, rfl⟩

/-- C8: every set or clear operation on one selection cell leaves the other
cell unchanged, in both directions; this includes the raw input handlers. -/
theorem C8_cell_independence (s : HomePageState) (t : Trust) (m : Mood)
    (input : String) :
    (setMood s m).trust = s.trust ∧ (mood_clear s).trust = s.trust ∧
    (mood_on_input s input).trust = s.trust ∧
    (setTrust s t).mood = s.mood ∧ (trust_clear s).mood = s.mood ∧
    (trust_on_input s input).mood = s.mood := by
  obtain ⟨st, sm⟩ := s
  exact ⟨rfl, rfl, rfl, rfl, rfl, rfl⟩

/-- C9: on an input that does not parse, the handler writes `none` into the
targeted cell: the resulting state is exactly the state the clear handler
produces, whatever the prior value was. -/
theorem C9_invalid_parse_is_clear (s : HomePageState) (input : String) :
    (Trust.from_str input = none → trust_on_input s input = trust_clear s) ∧
    (Mood.from_str input = none → mood_on_input s input = mood_clear s) := by
  obtain ⟨st, sm⟩ := s
  constructor
  · intro h; simp [trust_on_input, trust_clear, h]
  · intro h; simp [mood_on_input, mood_clear, h]

/-- C10: the table entries for (Absent, Cautious) and (Present, Cautious) are
the same suggestion: equal action strings and equal description strings. -/
theorem C10_cautious_trust_agnostic :
    suggestions_map (Trust.Absent, Mood._03_Cautious)
      = suggestions_map (Trust.Present, Mood._03_Cautious) ∧
    (suggestions_map (Trust.Absent, Mood._03_Cautious)).map Suggestion.action
      = (suggestions_map (Trust.Present, Mood._03_Cautious)).map Suggestion.action ∧
    (suggestions_map (Trust.Absent, Mood._03_Cautious)).map Suggestion.description
      = (suggestions_map (Trust.Present, Mood._03_Cautious)).map Suggestion.description :=
  ⟨rfl, rfl, rfl⟩
